import Mathlib

/-!
Verification of the cost/token calculation engine of the LLM Token Budget
Planner (`src/app.js`).  JavaScript numbers are modelled as rationals (ℚ):
every operation the engine performs on them is `+`, `-`, `*`, `/`, `min`,
`max` and comparisons, all exact on the inputs the spec discusses.  The
JavaScript idiom `x || d` on a numeric field (falsy `0` replaced by the
default `d`) is modelled by `jsOr`, and `x ?? d` on an optional field by
`Option.getD`.
-/

namespace BudgetPlanner

/-- The JS idiom `x || d` for a numeric value: `0` is falsy, every other number is
truthy. -/
def jsOr (x d : ℚ) : ℚ := if x = 0 then d else x

/-- A vendor pricing plan (`vendor_plans` entries in `src/app.js`). -/
structure VendorPlan where
  id : String
  vendor : String
  plan : String
  currency : String
  price_prompt_per_1k : ℚ
  price_completion_per_1k : ℚ
  monthly_commit_credit : ℚ
  free_tier_tokens : ℚ
  overage_multiplier : ℚ
deriving Repr, DecidableEq

/-- Alert thresholds `{ warn, critical }`. -/
structure Thresholds where
  warn : ℚ
  critical : ℚ
deriving Repr, DecidableEq

/-- An environment usage profile (`environments` entries in `src/app.js`).
`cache_savings_factor`, `completion_share` and `alert_thresholds` are read
with the `??` operator in the source, so they may be absent. -/
structure Environment where
  id : String
  env_name : String
  requests_per_day : ℚ
  avg_tokens_per_request : ℚ
  context_tokens : ℚ
  cache_hit_rate : ℚ
  cache_savings_factor : Option ℚ
  completion_share : Option ℚ
  days_per_month : ℚ
  budget_currency : String
  monthly_budget : ℚ
  alert_thresholds : Option Thresholds
deriving Repr, DecidableEq

/-- Result record of `calculateCost`. -/
structure CostResult where
  raw_cost : ℚ
  cost_after_free_tier : ℚ
  final_cost : ℚ
deriving Repr, DecidableEq

/-- The function `calculateCost` from `src/app.js` (lines 257–300): applies the pro-rata
free tier, then the monthly commit credit with overage multiplier. -/
def calculateCost (prompt_tokens completion_tokens : ℚ) (plan : VendorPlan) :
    CostResult :=
  let total_tokens := prompt_tokens + completion_tokens
  let free_tier := jsOr plan.free_tier_tokens 0
  -- Step 6.1: apply free_tier_tokens (pro-rata)
  let billable :=
    if free_tier > 0 ∧ total_tokens > 0 then
      let tokens_after_free := max 0 (total_tokens - free_tier)
      let free_tier_ratio := tokens_after_free / total_tokens
      (prompt_tokens * free_tier_ratio, completion_tokens * free_tier_ratio)
    else
      (prompt_tokens, completion_tokens)
  let cost_after_free_tier :=
    billable.1 / 1000 * plan.price_prompt_per_1k +
      billable.2 / 1000 * plan.price_completion_per_1k
  -- Raw cost is calculated without the free tier
  let raw_cost :=
    prompt_tokens / 1000 * plan.price_prompt_per_1k +
      completion_tokens / 1000 * plan.price_completion_per_1k
  -- Step 6.2: apply monthly_commit_credit and overage
  let commit := jsOr plan.monthly_commit_credit 0
  let final_cost :=
    if commit > 0 then
      let overage_amount := max 0 (cost_after_free_tier - commit)
      let overage_multiplier := jsOr plan.overage_multiplier 1
      let overage_cost := overage_amount * overage_multiplier
      min cost_after_free_tier commit + overage_cost
    else
      cost_after_free_tier
  { raw_cost := raw_cost, cost_after_free_tier := cost_after_free_tier,
    final_cost := final_cost }

/-- Rendering of `x.toFixed(d)` used by the suggestion strings: round to `d`
decimal places, half toward `+∞` (the ECMAScript rule picks the larger
candidate on ties), then print with exactly `d` fractional digits. -/
def toFixed (x : ℚ) (d : ℕ) : String :=
  let n : ℤ := Rat.floor (x * (10 : ℚ) ^ d + 1 / 2)
  let sign := if n < 0 then "-" else ""
  let a := n.natAbs
  if d = 0 then
    sign ++ toString a
  else
    let ip := a / 10 ^ d
    let fp := a % 10 ^ d
    let fs := toString fp
    let pad := String.mk (List.replicate (d - fs.length) (Char.ofNat 48))
    sign ++ toString ip ++ "." ++ pad ++ fs

/-- The successful per-environment result record built by `calculateAll`
(lines 214–233 of `src/app.js`). -/
structure EnvOk where
  env_id : String
  env_name : String
  plan_name : String
  currency : String
  budget : ℚ
  budget_currency : String
  monthly_tokens : ℚ
  prompt_tokens : ℚ
  completion_tokens : ℚ
  raw_cost : ℚ
  cost_after_free_tier : ℚ
  final_cost : ℚ
  utilization : ℚ
  status : String
  suggestion : String
deriving Repr, DecidableEq

/-- A per-environment result: either the error record pushed when no plan
resolves (lines 153–158) or a full result record. -/
inductive EnvResult where
  | error (env_id env_name error status : String)
  | ok (r : EnvOk)
deriving Repr, DecidableEq

/-- Step 1 of the evaluator:
`effective = avg + context * (1 - hit_rate * savings)` (lines 164–166),
with the `?? 0.8` default on `cache_savings_factor`. -/
def effectiveTokensPerRequest (env : Environment) : ℚ :=
  let cache_savings_factor := env.cache_savings_factor.getD (8 / 10)
  env.avg_tokens_per_request +
    env.context_tokens * (1 - env.cache_hit_rate * cache_savings_factor)

/-- The body of the `calculateAll` loop for an environment whose plan
resolved (lines 162–233 of `src/app.js`): token derivation, cost call,
utilization, status classification and suggestion text. -/
def evalEnv (env : Environment) (plan : VendorPlan) : EnvOk :=
  let effective_tokens_per_request := effectiveTokensPerRequest env
  let monthly_tokens :=
    env.requests_per_day * effective_tokens_per_request * env.days_per_month
  let completion_share := env.completion_share.getD (4 / 10)
  let prompt_share := 1 - completion_share
  let prompt_tokens := monthly_tokens * prompt_share
  let completion_tokens := monthly_tokens * completion_share
  let costResult := calculateCost prompt_tokens completion_tokens plan
  let utilization :=
    if env.monthly_budget > 0 then costResult.final_cost / env.monthly_budget
    else 0
  let thresholds := env.alert_thresholds.getD ⟨8 / 10, 1⟩
  let status :=
    if utilization ≥ thresholds.critical then "RED"
    else if utilization ≥ thresholds.warn then "AMBER"
    else "GREEN"
  let suggestion :=
    if status = "RED" ∨ status = "AMBER" then
      let shortfall := costResult.final_cost - env.monthly_budget
      let s1 :=
        if shortfall > 0 then
          "Budget shortfall of " ++ plan.currency ++ " " ++
            toFixed shortfall 2 ++ ". "
        else ""
      let target_cost := env.monthly_budget * thresholds.warn
      let percent_to_reduce :=
        if costResult.final_cost > 0 then
          (costResult.final_cost - target_cost) / costResult.final_cost
        else 0
      if percent_to_reduce > 0 then
        s1 ++ "To reach safety (sub-" ++ toFixed (thresholds.warn * 100) 0 ++
          "%), reduce token usage by ~" ++ toFixed (percent_to_reduce * 100) 0 ++
          "% or raise budget."
      else s1
    else ""
  { env_id := env.id, env_name := env.env_name,
    plan_name := plan.vendor ++ " - " ++ plan.plan,
    currency := plan.currency,
    budget := env.monthly_budget, budget_currency := env.budget_currency,
    monthly_tokens := monthly_tokens, prompt_tokens := prompt_tokens,
    completion_tokens := completion_tokens,
    raw_cost := costResult.raw_cost,
    cost_after_free_tier := costResult.cost_after_free_tier,
    final_cost := costResult.final_cost,
    utilization := utilization, status := status, suggestion := suggestion }

/-- The running portfolio totals (lines 136–143 and 238–244). -/
structure Totals where
  total_tokens : ℚ
  prompt_tokens : ℚ
  completion_tokens : ℚ
  raw_cost : ℚ
  final_cost : ℚ
  budget : ℚ
deriving Repr, DecidableEq

/-- The initial `totals` object of `calculateAll`. -/
def Totals.zero : Totals :=
  { total_tokens := 0, prompt_tokens := 0, completion_tokens := 0,
    raw_cost := 0, final_cost := 0, budget := 0 }

/-- Pointwise addition of totals (used to state decomposition lemmas). -/
def Totals.add (s t : Totals) : Totals :=
  { total_tokens := s.total_tokens + t.total_tokens,
    prompt_tokens := s.prompt_tokens + t.prompt_tokens,
    completion_tokens := s.completion_tokens + t.completion_tokens,
    raw_cost := s.raw_cost + t.raw_cost,
    final_cost := s.final_cost + t.final_cost,
    budget := s.budget + t.budget }

/-- The whole application state as consumed by `calculateAll`:
`plan_assignment` is the JS object mapping environment ids to plan ids,
modelled as an association list. -/
structure AppState where
  vendor_plans : List VendorPlan
  environments : List Environment
  plan_assignment : List (String × String)
deriving Repr, DecidableEq

/-- Lookup `plansMap.get pid` for the `Map` built on line 145: a JS `Map`
constructed from a list keeps the last entry for each key. -/
def plansMapGet (plans : List VendorPlan) (pid : String) : Option VendorPlan :=
  plans.foldl (fun acc p => if p.id = pid then some p else acc) none

/-- Lines 148–149: `plan_assignment[env.id]` then `plansMap.get(planId)`;
a missing assignment gives `undefined`, and `Map.get undefined` is
`undefined`. -/
def resolvePlan (plans : List VendorPlan) (assignment : List (String × String))
    (env : Environment) : Option VendorPlan :=
  match assignment.lookup env.id with
  | none => none
  | some planId => plansMapGet plans planId

/-- One iteration of the `calculateAll` loop (lines 147–245): push either
the error record or the evaluated result, and accumulate totals only in the
latter case. -/
def calcStep (plans : List VendorPlan) (assignment : List (String × String))
    (acc : List EnvResult × Totals) (env : Environment) :
    List EnvResult × Totals :=
  match resolvePlan plans assignment env with
  | none =>
    (acc.1 ++ [EnvResult.error env.id env.env_name "No valid plan assigned." "N/A"],
      acc.2)
  | some plan =>
    let r := evalEnv env plan
    (acc.1 ++ [EnvResult.ok r],
      { total_tokens := acc.2.total_tokens + r.monthly_tokens,
        prompt_tokens := acc.2.prompt_tokens + r.prompt_tokens,
        completion_tokens := acc.2.completion_tokens + r.completion_tokens,
        raw_cost := acc.2.raw_cost + r.raw_cost,
        final_cost := acc.2.final_cost + r.final_cost,
        budget := acc.2.budget + env.monthly_budget })

/-- The function `calculateAll` from `src/app.js` (lines 133–248): the portfolio
aggregator, returning the per-environment results and the totals. -/
def calculateAll (state : AppState) : List EnvResult × Totals :=
  state.environments.foldl
    (calcStep state.vendor_plans state.plan_assignment) ([], Totals.zero)

/-- The result an unresolvable environment contributes to `perEnv`. -/
def stepResult (plans : List VendorPlan) (assignment : List (String × String))
    (env : Environment) : EnvResult :=
  match resolvePlan plans assignment env with
  | none => EnvResult.error env.id env.env_name "No valid plan assigned." "N/A"
  | some plan => EnvResult.ok (evalEnv env plan)

/-- The totals contribution of one environment: zero when its plan does not
resolve. -/
def stepTotals (plans : List VendorPlan) (assignment : List (String × String))
    (env : Environment) : Totals :=
  match resolvePlan plans assignment env with
  | none => Totals.zero
  | some plan =>
    let r := evalEnv env plan
    { total_tokens := r.monthly_tokens, prompt_tokens := r.prompt_tokens,
      completion_tokens := r.completion_tokens, raw_cost := r.raw_cost,
      final_cost := r.final_cost, budget := env.monthly_budget }

/-- Plan 1 of the seeded `DEFAULT_STATE` (lines 18–28): the Scenario A
plan. -/
def defaultPlan1 : VendorPlan :=
  { id := "plan_1", vendor := "OpenAI", plan := "Test-Plan (from prompt)",
    currency := "EUR", price_prompt_per_1k := 0.002,
    price_completion_per_1k := 0.006, monthly_commit_credit := 0,
    free_tier_tokens := 0, overage_multiplier := 1 }

/-- Plan 2 of the seeded `DEFAULT_STATE` (lines 29–39). -/
def defaultPlan2 : VendorPlan :=
  { id := "plan_2", vendor := "Anthropic", plan := "Opus", currency := "USD",
    price_prompt_per_1k := 0.015, price_completion_per_1k := 0.075,
    monthly_commit_credit := 0, free_tier_tokens := 0,
    overage_multiplier := 1 }

/-- Environment 1 of the seeded `DEFAULT_STATE` (lines 42–55): the
Scenario A environment. -/
def defaultEnv1 : Environment :=
  { id := "env_1", env_name := "Production (Test Scenario)",
    requests_per_day := 100, avg_tokens_per_request := 1000,
    context_tokens := 200, cache_hit_rate := 0.5,
    cache_savings_factor := some 0.8, completion_share := some 0.4,
    days_per_month := 30, budget_currency := "EUR", monthly_budget := 20,
    alert_thresholds := some { warn := 0.8, critical := 1 } }

/-- Environment 2 of the seeded `DEFAULT_STATE` (lines 56–69). -/
def defaultEnv2 : Environment :=
  { id := "env_2", env_name := "Staging", requests_per_day := 50,
    avg_tokens_per_request := 2000, context_tokens := 1000,
    cache_hit_rate := 0.1, cache_savings_factor := some 0.8,
    completion_share := some 0.3, days_per_month := 22,
    budget_currency := "USD", monthly_budget := 50,
    alert_thresholds := some { warn := 0.8, critical := 1 } }

/-- An environment with a zero monthly budget and degenerate alert
thresholds, used to probe the status classification at budget 0. -/
def zeroBudgetEnv : Environment :=
  { defaultEnv1 with
    monthly_budget := 0
    alert_thresholds := some { warn := 0, critical := 0 } }

/-- An environment with zero budget and the default thresholds
(Scenario D). -/
def scenarioDEnv : Environment :=
  { defaultEnv1 with monthly_budget := 0 }

/-- An environment absent from the seeded plan assignment (Scenario E). -/
def unassignedEnv : Environment :=
  { defaultEnv1 with
    id := "env_3"
    env_name := "Dev (no plan)" }

/-- The seeded application state (`DEFAULT_STATE`, lines 16–75). -/
def defaultState : AppState :=
  { vendor_plans := [defaultPlan1, defaultPlan2],
    environments := [defaultEnv1, defaultEnv2],
    plan_assignment := [("env_1", "plan_1"), ("env_2", "plan_2")] }

/-- The Scenario C plan: commit credit 5 and overage multiplier 1.5. -/
def planScenarioC : VendorPlan :=
  { defaultPlan1 with
    monthly_commit_credit := 5
    overage_multiplier := 1.5 }

/-- A plan with a positive commit credit whose overage multiplier is
literally 0. -/
def planCommit5Mult0 : VendorPlan :=
  { defaultPlan1 with
    monthly_commit_credit := 5
    overage_multiplier := 0 }

/-! ## Shared lemmas -/

theorem jsOr_zero (x : ℚ) : jsOr x 0 = x := by
  unfold jsOr; split <;> simp_all

theorem calculateCost_raw_eq (p c : ℚ) (plan : VendorPlan) :
    (calculateCost p c plan).raw_cost =
      p / 1000 * plan.price_prompt_per_1k +
        c / 1000 * plan.price_completion_per_1k := rfl

theorem calculateCost_cost_after_eq (p c : ℚ) (plan : VendorPlan) :
    (calculateCost p c plan).cost_after_free_tier =
      if plan.free_tier_tokens > 0 ∧ p + c > 0 then
        p * (max 0 (p + c - plan.free_tier_tokens) / (p + c)) / 1000 *
            plan.price_prompt_per_1k +
          c * (max 0 (p + c - plan.free_tier_tokens) / (p + c)) / 1000 *
            plan.price_completion_per_1k
      else
        p / 1000 * plan.price_prompt_per_1k +
          c / 1000 * plan.price_completion_per_1k := by
  by_cases h : plan.free_tier_tokens > 0 ∧ p + c > 0 <;>
    simp [calculateCost, jsOr_zero, h]

theorem calculateCost_final_eq (p c : ℚ) (plan : VendorPlan) :
    (calculateCost p c plan).final_cost =
      if plan.monthly_commit_credit > 0 then
        min (calculateCost p c plan).cost_after_free_tier
            plan.monthly_commit_credit +
          max 0 ((calculateCost p c plan).cost_after_free_tier -
              plan.monthly_commit_credit) *
            jsOr plan.overage_multiplier 1
      else (calculateCost p c plan).cost_after_free_tier := by
  by_cases h : plan.monthly_commit_credit > 0 <;>
    simp [calculateCost, jsOr_zero, h]

/-! ## Claim theorems -/

/-- C3: for all non-negative token counts, `raw_cost` is the plain
per-1k-price formula on the unscaled counts, and it does not depend on the
plan's `free_tier_tokens`. -/
theorem raw_cost_formula_and_free_tier_independence (plan : VendorPlan)
    (p c : ℚ) (hp : 0 ≤ p) (hc : 0 ≤ c) :
    (calculateCost p c plan).raw_cost =
      p / 1000 * plan.price_prompt_per_1k +
        c / 1000 * plan.price_completion_per_1k ∧
    ∀ ft : ℚ,
      (calculateCost p c { plan with free_tier_tokens := ft }).raw_cost =
        (calculateCost p c plan).raw_cost :=
  ⟨rfl, fun _ => rfl⟩

/-- Witness for C3 at the Scenario B input: a 1,000,000-token free tier
leaves `raw_cost` at 12.096. -/
theorem raw_cost_formula_and_free_tier_independence_witness :
    ((calculateCost 2016000 1344000 defaultPlan1).raw_cost =
        2016000 / 1000 * defaultPlan1.price_prompt_per_1k +
          1344000 / 1000 * defaultPlan1.price_completion_per_1k ∧
      ∀ ft : ℚ,
        (calculateCost 2016000 1344000
            { defaultPlan1 with free_tier_tokens := ft }).raw_cost =
          (calculateCost 2016000 1344000 defaultPlan1).raw_cost) ∧
    (calculateCost 2016000 1344000
        { defaultPlan1 with free_tier_tokens := 1000000 }).raw_cost =
      (12.096 : ℚ) :=
  ⟨raw_cost_formula_and_free_tier_independence defaultPlan1 2016000 1344000
      (by norm_num) (by norm_num),
    by norm_num [calculateCost, defaultPlan1, jsOr]⟩

/-- C7: a plan with `free_tier_tokens = 0` yields
`cost_after_free_tier = raw_cost`. -/
theorem free_tier_zero_cost_after_eq_raw (plan : VendorPlan) (p c : ℚ)
    (hp : 0 ≤ p) (hc : 0 ≤ c) (hft : plan.free_tier_tokens = 0) :
    (calculateCost p c plan).cost_after_free_tier =
      (calculateCost p c plan).raw_cost := by
  simp [calculateCost, jsOr, hft]

/-- Witness for C7 at the Scenario A input. -/
theorem free_tier_zero_cost_after_eq_raw_witness :
    (calculateCost 2016000 1344000 defaultPlan1).cost_after_free_tier =
      (calculateCost 2016000 1344000 defaultPlan1).raw_cost :=
  free_tier_zero_cost_after_eq_raw defaultPlan1 2016000 1344000
    (by norm_num) (by norm_num) (by norm_num [defaultPlan1])

/-- C6: with a positive commit credit, an overage multiplier literally set
to 0 produces the same `final_cost` as multiplier 1.0. -/
theorem zero_multiplier_behaves_as_one (plan : VendorPlan) (p c : ℚ)
    (hcm : 0 < plan.monthly_commit_credit)
    (hom : plan.overage_multiplier = 0) :
    (calculateCost p c plan).final_cost =
      (calculateCost p c { plan with overage_multiplier := 1 }).final_cost := by
  simp [calculateCost, jsOr, hom]

/-- Witness for C6: a plan with commit 5 and multiplier 0. -/
theorem zero_multiplier_behaves_as_one_witness :
    (calculateCost 4246800 0 planCommit5Mult0).final_cost =
      (calculateCost 4246800 0
          { planCommit5Mult0 with overage_multiplier := 1 }).final_cost :=
  zero_multiplier_behaves_as_one planCommit5Mult0 4246800 0
    (by norm_num [planCommit5Mult0, defaultPlan1])
    (by norm_num [planCommit5Mult0, defaultPlan1])

/-- C2: with commit credit 0, `final_cost = cost_after_free_tier`; with a
positive commit credit, `final_cost` blends the capped commit with the
multiplied overage, where the overage multiplier follows the spec's stated
default rule (a multiplier of 0 means the default 1.0). -/
theorem commit_blend_final_cost (plan : VendorPlan) (p c : ℚ)
    (hp : 0 ≤ p) (hc : 0 ≤ c) :
    (plan.monthly_commit_credit = 0 →
      (calculateCost p c plan).final_cost =
        (calculateCost p c plan).cost_after_free_tier) ∧
    (0 < plan.monthly_commit_credit →
      (calculateCost p c plan).final_cost =
        min (calculateCost p c plan).cost_after_free_tier
            plan.monthly_commit_credit +
          max 0 ((calculateCost p c plan).cost_after_free_tier -
              plan.monthly_commit_credit) *
            (if plan.overage_multiplier = 0 then 1
             else plan.overage_multiplier)) := by
  constructor
  · intro h
    simp [calculateCost, jsOr, h]
  · intro h
    simp [calculateCost, jsOr, h, h.ne']

/-- Witness for C2 at the Scenario C figures: `cost_after_free_tier`
exactly 8.4936 with commit 5 and multiplier 1.5 gives `final_cost`
10.2404. -/
theorem commit_blend_final_cost_witness :
    ((planScenarioC.monthly_commit_credit = 0 →
        (calculateCost 4246800 0 planScenarioC).final_cost =
          (calculateCost 4246800 0 planScenarioC).cost_after_free_tier) ∧
      (0 < planScenarioC.monthly_commit_credit →
        (calculateCost 4246800 0 planScenarioC).final_cost =
          min (calculateCost 4246800 0 planScenarioC).cost_after_free_tier
              planScenarioC.monthly_commit_credit +
            max 0 ((calculateCost 4246800 0 planScenarioC).cost_after_free_tier -
                planScenarioC.monthly_commit_credit) *
              (if planScenarioC.overage_multiplier = 0 then 1
               else planScenarioC.overage_multiplier))) ∧
    (calculateCost 4246800 0 planScenarioC).cost_after_free_tier =
        (8.4936 : ℚ) ∧
    (calculateCost 4246800 0 planScenarioC).final_cost = (10.2404 : ℚ) :=
  ⟨commit_blend_final_cost planScenarioC 4246800 0 (by norm_num) (by norm_num),
    by norm_num [calculateCost, planScenarioC, defaultPlan1, jsOr],
    by norm_num [calculateCost, planScenarioC, defaultPlan1, jsOr]⟩

/-- C1: Scenario A, evaluated on the seeded default environment and plan:
effective tokens per request 1120, monthly tokens 3,360,000, completion
tokens 1,344,000, prompt tokens 2,016,000, and all three costs 12.096. -/
theorem scenarioA_values :
    effectiveTokensPerRequest defaultEnv1 = 1120 ∧
    (evalEnv defaultEnv1 defaultPlan1).monthly_tokens = 3360000 ∧
    (evalEnv defaultEnv1 defaultPlan1).completion_tokens = 1344000 ∧
    (evalEnv defaultEnv1 defaultPlan1).prompt_tokens = 2016000 ∧
    (evalEnv defaultEnv1 defaultPlan1).raw_cost = (12.096 : ℚ) ∧
    (evalEnv defaultEnv1 defaultPlan1).cost_after_free_tier = (12.096 : ℚ) ∧
    (evalEnv defaultEnv1 defaultPlan1).final_cost = (12.096 : ℚ) := by
  refine ⟨?_, ?_, ?_, ?_, ?_, ?_, ?_⟩ <;>
    norm_num [evalEnv, effectiveTokensPerRequest, calculateCost, jsOr,
      defaultEnv1, defaultPlan1]

/-- C8: with non-negative prices, commit credit, free tier, multiplier and
token counts, both `final_cost` and `cost_after_free_tier` are
non-negative. -/
theorem costs_nonneg (plan : VendorPlan) (p c : ℚ)
    (h1 : 0 ≤ plan.price_prompt_per_1k)
    (h2 : 0 ≤ plan.price_completion_per_1k)
    (h3 : 0 ≤ plan.monthly_commit_credit)
    (h4 : 0 ≤ plan.free_tier_tokens)
    (h5 : 0 ≤ plan.overage_multiplier)
    (hp : 0 ≤ p) (hc : 0 ≤ c) :
    0 ≤ (calculateCost p c plan).final_cost ∧
    0 ≤ (calculateCost p c plan).cost_after_free_tier := by
  have key : ∀ bp bc : ℚ, 0 ≤ bp → 0 ≤ bc →
      0 ≤ bp / 1000 * plan.price_prompt_per_1k +
        bc / 1000 * plan.price_completion_per_1k := fun bp bc hbp hbc =>
    add_nonneg (mul_nonneg (div_nonneg hbp (by norm_num)) h1)
      (mul_nonneg (div_nonneg hbc (by norm_num)) h2)
  have hca : 0 ≤ (calculateCost p c plan).cost_after_free_tier := by
    rw [calculateCost_cost_after_eq]
    split
    next h =>
      have hr : 0 ≤ max 0 (p + c - plan.free_tier_tokens) / (p + c) :=
        div_nonneg (le_max_left _ _) h.2.le
      exact key _ _ (mul_nonneg hp hr) (mul_nonneg hc hr)
    next h => exact key _ _ hp hc
  refine ⟨?_, hca⟩
  rw [calculateCost_final_eq]
  split
  next h =>
    have hm : 0 ≤ jsOr plan.overage_multiplier 1 := by
      unfold jsOr; split
      · norm_num
      · exact h5
    exact add_nonneg (le_min hca h.le)
      (mul_nonneg (le_max_left _ _) hm)
  next h => exact hca

/-- Witness for C8 at the Scenario C plan and input. -/
theorem costs_nonneg_witness :
    0 ≤ (calculateCost 4246800 0 planScenarioC).final_cost ∧
    0 ≤ (calculateCost 4246800 0 planScenarioC).cost_after_free_tier :=
  costs_nonneg planScenarioC 4246800 0
    (by norm_num [planScenarioC, defaultPlan1])
    (by norm_num [planScenarioC, defaultPlan1])
    (by norm_num [planScenarioC, defaultPlan1])
    (by norm_num [planScenarioC, defaultPlan1])
    (by norm_num [planScenarioC, defaultPlan1])
    (by norm_num) (by norm_num)

/-- C10: the pro-rata free tier can only discount: `cost_after_free_tier`
never exceeds `raw_cost`, and a free tier covering all tokens drives
`cost_after_free_tier` to 0. -/
theorem free_tier_never_increases_cost (plan : VendorPlan) (p c : ℚ)
    (h1 : 0 ≤ plan.price_prompt_per_1k)
    (h2 : 0 ≤ plan.price_completion_per_1k)
    (h4 : 0 ≤ plan.free_tier_tokens)
    (hp : 0 ≤ p) (hc : 0 ≤ c) :
    (calculateCost p c plan).cost_after_free_tier ≤
      (calculateCost p c plan).raw_cost ∧
    (p + c ≤ plan.free_tier_tokens →
      (calculateCost p c plan).cost_after_free_tier = 0) := by
  constructor
  · rw [calculateCost_cost_after_eq, calculateCost_raw_eq]
    split
    next h =>
      have ht : (0 : ℚ) < p + c := h.2
      have hr1 : max 0 (p + c - plan.free_tier_tokens) / (p + c) ≤ 1 := by
        rw [div_le_one ht]
        exact max_le ht.le (by linarith)
      have e1 : p * (max 0 (p + c - plan.free_tier_tokens) / (p + c)) ≤ p :=
        mul_le_of_le_one_right hp hr1
      have e2 : c * (max 0 (p + c - plan.free_tier_tokens) / (p + c)) ≤ c :=
        mul_le_of_le_one_right hc hr1
      exact add_le_add
        (mul_le_mul_of_nonneg_right ((div_le_div_right (by norm_num)).mpr e1) h1)
        (mul_le_mul_of_nonneg_right ((div_le_div_right (by norm_num)).mpr e2) h2)
    next h => exact le_refl _
  · intro hle
    rw [calculateCost_cost_after_eq]
    split
    next h =>
      have hm : max 0 (p + c - plan.free_tier_tokens) = 0 :=
        max_eq_left (by linarith)
      simp [hm]
    next h =>
      have hpc : p + c ≤ 0 := by
        rcases not_and_or.mp h with h' | h'
        · have hf : plan.free_tier_tokens = 0 := le_antisymm (not_lt.mp h') h4
          linarith
        · exact not_lt.mp h'
      have hp0 : p = 0 := le_antisymm (by linarith) hp
      have hc0 : c = 0 := le_antisymm (by linarith) hc
      simp [hp0, hc0]

/-- Witness for C10: a free tier of 4,000,000 tokens covers the
3,360,000-token Scenario A usage, so the discounted cost is 0. -/
theorem free_tier_never_increases_cost_witness :
    (calculateCost 2016000 1344000
        { defaultPlan1 with free_tier_tokens := 4000000 }).cost_after_free_tier ≤
      (calculateCost 2016000 1344000
        { defaultPlan1 with free_tier_tokens := 4000000 }).raw_cost ∧
    ((2016000 : ℚ) + 1344000 ≤
        ({ defaultPlan1 with free_tier_tokens := 4000000 } :
          VendorPlan).free_tier_tokens →
      (calculateCost 2016000 1344000
        { defaultPlan1 with free_tier_tokens := 4000000 }).cost_after_free_tier = 0) :=
  free_tier_never_increases_cost
    { defaultPlan1 with free_tier_tokens := 4000000 } 2016000 1344000
    (by norm_num [defaultPlan1]) (by norm_num [defaultPlan1])
    (by norm_num [defaultPlan1]) (by norm_num) (by norm_num)

/-- C4 counterexample: the environment `zeroBudgetEnv` has a zero monthly
budget and a resolvable plan, yet the evaluator classifies it RED, because
its critical threshold is 0 and the comparison `0 ≥ 0` holds. -/
theorem budget_zero_green_counterexample :
    zeroBudgetEnv.monthly_budget = 0 ∧
    (evalEnv zeroBudgetEnv defaultPlan1).status = "RED" := by
  constructor
  · rfl
  · norm_num [evalEnv, zeroBudgetEnv, defaultEnv1, defaultPlan1,
      effectiveTokensPerRequest, calculateCost, jsOr]

/-- C4 (amended): for an environment with `monthly_budget = 0` whose
resolved warn and critical thresholds are positive (as the defaults 0.8 and
1.0 are), utilization is 0, the status is GREEN, and the suggestion is
empty, regardless of cost. -/
theorem budget_zero_green (env : Environment) (plan : VendorPlan)
    (hb : env.monthly_budget = 0)
    (hw : 0 < (env.alert_thresholds.getD ⟨8 / 10, 1⟩).warn)
    (hcrit : 0 < (env.alert_thresholds.getD ⟨8 / 10, 1⟩).critical) :
    (evalEnv env plan).utilization = 0 ∧
    (evalEnv env plan).status = "GREEN" ∧
    (evalEnv env plan).suggestion = "" := by
  have h1 : ¬ ((0 : ℚ) ≥ (env.alert_thresholds.getD ⟨8 / 10, 1⟩).critical) :=
    not_le.mpr hcrit
  have h2 : ¬ ((0 : ℚ) ≥ (env.alert_thresholds.getD ⟨8 / 10, 1⟩).warn) :=
    not_le.mpr hw
  refine ⟨?_, ?_, ?_⟩ <;> simp [evalEnv, hb, h1, h2]

/-- Witness for the amended C4: Scenario D on the default environment with
its budget set to 0 (default thresholds 0.8 and 1.0). -/
theorem budget_zero_green_witness :
    (evalEnv scenarioDEnv defaultPlan1).utilization = 0 ∧
    (evalEnv scenarioDEnv defaultPlan1).status = "GREEN" ∧
    (evalEnv scenarioDEnv defaultPlan1).suggestion = "" :=
  budget_zero_green scenarioDEnv defaultPlan1 rfl
    (by norm_num [scenarioDEnv, defaultEnv1])
    (by norm_num [scenarioDEnv, defaultEnv1])

theorem Totals.add_zero (t : Totals) : Totals.add t Totals.zero = t := by
  cases t; simp [Totals.add, Totals.zero]

theorem Totals.zero_add (t : Totals) : Totals.add Totals.zero t = t := by
  cases t; simp [Totals.add, Totals.zero]

theorem Totals.add_assoc (a b c : Totals) :
    Totals.add (Totals.add a b) c = Totals.add a (Totals.add b c) := by
  cases a; cases b; cases c
  simp only [Totals.add, Totals.mk.injEq]
  refine ⟨?_, ?_, ?_, ?_, ?_, ?_⟩ <;> ring

theorem plansMapGet_eq_none (plans : List VendorPlan) (pid : String)
    (h : ∀ p ∈ plans, p.id ≠ pid) : plansMapGet plans pid = none := by
  induction plans with
  | nil => rfl
  | cons p ps ih =>
    simp only [plansMapGet, List.foldl_cons]
    rw [if_neg (h p (List.mem_cons_self p ps))]
    exact ih fun q hq => h q (List.mem_cons_of_mem p hq)

theorem calcStep_eq (plans : List VendorPlan)
    (asg : List (String × String)) (acc : List EnvResult × Totals)
    (env : Environment) :
    calcStep plans asg acc env =
      (acc.1 ++ [stepResult plans asg env],
        Totals.add acc.2 (stepTotals plans asg env)) := by
  cases h : resolvePlan plans asg env <;>
    simp [calcStep, stepResult, stepTotals, h, Totals.add, Totals.zero]

theorem foldl_calcStep_acc (plans : List VendorPlan)
    (asg : List (String × String)) (es : List Environment)
    (l : List EnvResult) (t : Totals) :
    es.foldl (calcStep plans asg) (l, t) =
      (l ++ (es.foldl (calcStep plans asg) ([], Totals.zero)).1,
        Totals.add t (es.foldl (calcStep plans asg) ([], Totals.zero)).2) := by
  induction es generalizing l t with
  | nil => simp [Totals.add_zero]
  | cons e es ih =>
    rw [List.foldl_cons, List.foldl_cons, calcStep_eq, calcStep_eq,
      ih (l ++ [stepResult plans asg e])
        (Totals.add t (stepTotals plans asg e)),
      ih ([] ++ [stepResult plans asg e])
        (Totals.add Totals.zero (stepTotals plans asg e))]
    simp [List.append_assoc, Totals.zero_add, Totals.add_assoc]

/-- C5: an environment whose assignment is absent, or whose assigned plan
id (including the empty string) matches no plan, yields exactly the error
record, contributes nothing to the totals, and leaves the results of the
environments before and after it unchanged. -/
theorem unassigned_env_isolated (plans : List VendorPlan)
    (asg : List (String × String)) (es₁ es₂ : List Environment)
    (e : Environment)
    (h : asg.lookup e.id = none ∨
      ∃ pid, asg.lookup e.id = some pid ∧ ∀ p ∈ plans, p.id ≠ pid) :
    calculateAll ⟨plans, es₁ ++ e :: es₂, asg⟩ =
      ((calculateAll ⟨plans, es₁, asg⟩).1 ++
          EnvResult.error e.id e.env_name "No valid plan assigned." "N/A" ::
            (calculateAll ⟨plans, es₂, asg⟩).1,
        (calculateAll ⟨plans, es₁ ++ es₂, asg⟩).2) := by
  have hres : resolvePlan plans asg e = none := by
    rcases h with h | ⟨pid, hpid, hall⟩
    · simp [resolvePlan, h]
    · simp [resolvePlan, hpid, plansMapGet_eq_none plans pid hall]
  simp only [calculateAll, List.foldl_append, List.foldl_cons]
  rw [calcStep_eq]
  rw [foldl_calcStep_acc plans asg es₂]
  rw [foldl_calcStep_acc plans asg es₂
    (es₁.foldl (calcStep plans asg) ([], Totals.zero)).1]
  simp [stepResult, stepTotals, hres, Totals.add_zero, List.append_assoc]

/-- Witness for C5: the seeded state with an extra environment holding no
assignment entry, placed between the two seeded environments. -/
theorem unassigned_env_isolated_witness :
    calculateAll ⟨[defaultPlan1, defaultPlan2],
        [defaultEnv1] ++ unassignedEnv :: [defaultEnv2],
        [("env_1", "plan_1"), ("env_2", "plan_2")]⟩ =
      ((calculateAll ⟨[defaultPlan1, defaultPlan2], [defaultEnv1],
            [("env_1", "plan_1"), ("env_2", "plan_2")]⟩).1 ++
          EnvResult.error unassignedEnv.id unassignedEnv.env_name
              "No valid plan assigned." "N/A" ::
            (calculateAll ⟨[defaultPlan1, defaultPlan2], [defaultEnv2],
              [("env_1", "plan_1"), ("env_2", "plan_2")]⟩).1,
        (calculateAll ⟨[defaultPlan1, defaultPlan2],
          [defaultEnv1] ++ [defaultEnv2],
          [("env_1", "plan_1"), ("env_2", "plan_2")]⟩).2) :=
  unassigned_env_isolated [defaultPlan1, defaultPlan2]
    [("env_1", "plan_1"), ("env_2", "plan_2")] [defaultEnv1] [defaultEnv2]
    unassignedEnv (Or.inl rfl)

/-- C9: the aggregator is a pure function of the three state fields; two
states agreeing on plans, environments and assignment produce identical
per-environment results and totals. -/
theorem calculateAll_deterministic (s₁ s₂ : AppState)
    (h1 : s₁.vendor_plans = s₂.vendor_plans)
    (h2 : s₁.environments = s₂.environments)
    (h3 : s₁.plan_assignment = s₂.plan_assignment) :
    calculateAll s₁ = calculateAll s₂ := by
  cases s₁; cases s₂
  simp only at h1 h2 h3
  subst h1; subst h2; subst h3
  rfl

/-- Witness for C9: two syntactically identical copies of the seeded
state. -/
theorem calculateAll_deterministic_witness :
    calculateAll defaultState = calculateAll defaultState :=
  calculateAll_deterministic defaultState defaultState rfl rfl rfl

end BudgetPlanner
